import Mathlib

/-!
Shallow embedding of `backend/services/action_engine.py` (class `ActionEngine`).

Modelling conventions:
* Python dicts reaching `evaluate` are modelled as structures whose fields are
  `Option`-typed: `d.get(key, default)` becomes `field.getD default`.
* `priority_score` is dynamically typed in the source (the LLM may emit a
  string), so it is modelled by the sum type `PVal`; the Python comparisons
  `max(str, int)` and `str > int` raise `TypeError`, modelled by
  `Except String`.
* Python floats (`sentiment["compound"]`) are modelled as `Rat`; the only
  operation performed on them is the exact comparison `abs(c) > 0.5`.
* Python `in` on strings (substring test) is `strContains`; `str.lower()` is
  `lowerStr` (all strings involved are ASCII).
* The logger calls in the source are side-effect-free with respect to the
  returned value and are omitted.
-/

namespace ActionEngine

/-- Business rule thresholds and confidence weights set in `__init__`. -/
def HIGH_PRIORITY_THRESHOLD : Int := 85

def CHURN_MINIMUM_PRIORITY : Int := 90

def STRONG_SENTIMENT_THRESHOLD : Rat := mkRat 1 2

def BASE_CONFIDENCE : Int := 70

def SENTIMENT_BONUS : Int := 10

def KEYWORDS_BONUS : Int := 10

def ENTITIES_BONUS : Int := 10

/-- A dynamically-typed priority value: the generator may emit an int or a string. -/
inductive PVal where
  | vInt : Int → PVal
  | vStr : String → PVal
deriving DecidableEq, Repr

/-- Python f-string rendering of a priority value. -/
def PVal.render : PVal → String
  | .vInt n => toString n
  | .vStr s => s

/-- Python `max(p, n)` where `p` may be a str: comparing str and int raises `TypeError`. -/
def pvalMax (p : PVal) (n : Int) : Except String PVal :=
  match p with
  | .vInt m => .ok (.vInt (max m n))
  | .vStr _ => .error "TypeError: unsupported comparison between str and int"

/-- Python `p > n` where `p` may be a str: comparing str and int raises `TypeError`. -/
def pvalGt (p : PVal) (n : Int) : Except String Bool :=
  match p with
  | .vInt m => .ok (decide (m > n))
  | .vStr _ => .error "TypeError: unsupported comparison between str and int"

/-- The `sentiment` sub-dict of the NLP analysis: only the keys read by the engine. -/
structure Sentiment where
  compound : Option Rat
  sentiment_label : Option String
deriving DecidableEq, Repr

/-- `nlp_analysis` dict: the keys read by `evaluate` (missing key = `none`). -/
structure NLPAnalysis where
  intent : Option String
  sentiment : Option Sentiment
  keywords : Option (List (String × List String))
  entities : Option (List String)
deriving DecidableEq, Repr

/-- `llm_output` dict: the keys read by `evaluate` (missing key = `none`). -/
structure LLMOutput where
  recommended_action : Option String
  priority_score : Option PVal
  risk_level : Option String
  opportunity_level : Option String
  reasoning : Option String
deriving DecidableEq, Repr

/-- The decision dict returned by `evaluate`. -/
structure Decision where
  final_action : String
  priority_score : PVal
  risk_level : String
  opportunity_level : String
  escalation_required : Bool
  urgent_flag : Bool
  revenue_opportunity : Bool
  confidence_score : Int
  reasoning : String
  rules_applied : List String
  intent : String
  sentiment_label : String
deriving DecidableEq, Repr

/-- `a == b &&` prefix test on char lists (helper for the substring test). -/
def charsStartWith : List Char → List Char → Bool
  | [], _ => true
  | _ :: _, [] => false
  | a :: as, b :: bs => a == b && charsStartWith as bs

/-- Substring occurrence on char lists (helper for the substring test). -/
def charsContain (pat : List Char) : List Char → Bool
  | [] => charsStartWith pat []
  | c :: rest => charsStartWith pat (c :: rest) || charsContain pat rest

/-- Python `pat in s` (substring containment). -/
def strContains (s pat : String) : Bool :=
  charsContain pat.toList s.toList

/-- Python `str.lower()` for a single ASCII character. -/
def lowerChar (c : Char) : Char :=
  if 65 ≤ c.toNat ∧ c.toNat ≤ 90 then Char.ofNat (c.toNat + 32) else c

/-- Python `str.lower()` (the strings the engine handles are ASCII). -/
def lowerStr (s : String) : String :=
  String.mk (s.toList.map lowerChar)

/-- Python `abs()` on a float, modelled exactly on `Rat`. -/
def ratAbs (q : Rat) : Rat :=
  if q < 0 then -q else q

/-- The working state mutated by the six business rules inside `evaluate`. -/
structure EvalState where
  final_action : String
  priority_score : PVal
  escalation_required : Bool
  urgent_flag : Bool
  revenue_opportunity : Bool
  rules_applied : List String
deriving DecidableEq, Repr

/-- RULE 1: High Risk = Automatic Escalation. -/
def rule1 (risk_level : String) (s : EvalState) : EvalState :=
  if risk_level = "high" then
    ⟨"Escalate to Senior Manager immediately", s.priority_score, true,
     s.urgent_flag, s.revenue_opportunity,
     s.rules_applied ++ ["RULE_1: High risk detected - forced escalation"]⟩
  else s

/-- RULE 2: Churn Risk = Minimum Priority 90. -/
def rule2 (intent : String) (s : EvalState) : Except String EvalState :=
  if intent = "churn_risk" then
    match pvalMax s.priority_score CHURN_MINIMUM_PRIORITY with
    | .error e => .error e
    | .ok p =>
        .ok ⟨s.final_action, p, true, s.urgent_flag, s.revenue_opportunity,
             s.rules_applied ++
               ["RULE_2: Churn risk - priority elevated from " ++
                s.priority_score.render ++ " to " ++ p.render]⟩
  else .ok s

/-- RULE 3: High Opportunity + Low Risk = Revenue Opportunity. -/
def rule3 (opportunity_level risk_level : String) (s : EvalState) : EvalState :=
  if opportunity_level = "high" ∧ risk_level = "low" then
    ⟨s.final_action, s.priority_score, s.escalation_required, s.urgent_flag, true,
     s.rules_applied ++
       ["RULE_3: High opportunity + low risk = revenue opportunity flagged"]⟩
  else s

/-- RULE 4: Priority > 85 = Urgent Flag. -/
def rule4 (s : EvalState) : Except String EvalState :=
  match pvalGt s.priority_score HIGH_PRIORITY_THRESHOLD with
  | .error e => .error e
  | .ok b =>
      if b then
        .ok ⟨s.final_action, s.priority_score, s.escalation_required, true,
             s.revenue_opportunity,
             s.rules_applied ++
               ["RULE_4: Priority " ++ s.priority_score.render ++ " > " ++
                toString HIGH_PRIORITY_THRESHOLD ++ " - urgent flag set"]⟩
      else .ok s

/-- RULE 5: Complaint + High Risk = Retention Team. -/
def rule5 (intent risk_level : String) (s : EvalState) : EvalState :=
  if intent = "complaint" ∧ risk_level = "high" then
    ⟨"Route to retention specialist with compensation authority", s.priority_score,
     true, s.urgent_flag, s.revenue_opportunity,
     s.rules_applied ++ ["RULE_5: Complaint + high risk - retention routing"]⟩
  else s

/-- RULE 6: Demo Request + High Opportunity = Fast-track. -/
def rule6 (intent opportunity_level : String) (s : EvalState) : EvalState :=
  if intent = "demo_request" ∧ opportunity_level = "high" then
    ⟨(if strContains (lowerStr s.final_action) "schedule demo" then s.final_action
      else "Fast-track demo scheduling with senior sales rep"),
     s.priority_score, s.escalation_required, s.urgent_flag, s.revenue_opportunity,
     s.rules_applied ++ ["RULE_6: High-value demo request - fast-track enabled"]⟩
  else s

/-- Rules 1-5 applied in source order over the working state. -/
def rulesThrough5 (intent risk_level opportunity_level : String) (s0 : EvalState) :
    Except String EvalState :=
  match rule2 intent (rule1 risk_level s0) with
  | .error e => .error e
  | .ok s2 =>
      match rule4 (rule3 opportunity_level risk_level s2) with
      | .error e => .error e
      | .ok s4 => .ok (rule5 intent risk_level s4)

/-- All six rules applied in source order over the working state. -/
def runRules (intent risk_level opportunity_level : String) (s0 : EvalState) :
    Except String EvalState :=
  match rulesThrough5 intent risk_level opportunity_level s0 with
  | .error e => .error e
  | .ok s5 => .ok (rule6 intent opportunity_level s5)

/-- `ActionEngine._calculate_confidence`. -/
def calculate_confidence (sentiment : Sentiment)
    (keywords : List (String × List String)) (entities : List String) : Int :=
  let confidence := BASE_CONFIDENCE
  let compound_score := sentiment.compound.getD 0
  let confidence :=
    if ratAbs compound_score > STRONG_SENTIMENT_THRESHOLD then confidence + SENTIMENT_BONUS
    else confidence
  let confidence :=
    if keywords.length > 0 then confidence + KEYWORDS_BONUS else confidence
  let confidence :=
    if entities.length > 0 then confidence + ENTITIES_BONUS else confidence
  min confidence 100

/-- `ActionEngine.evaluate`: extraction with defaults, the six rules, confidence
scoring, decision assembly.  A Python `TypeError` is `Except.error`. -/
def evaluate (nlp_analysis : NLPAnalysis) (llm_output : LLMOutput) :
    Except String Decision :=
  let final_action := llm_output.recommended_action.getD "Review call manually"
  let priority_score := llm_output.priority_score.getD (.vInt 50)
  let risk_level := llm_output.risk_level.getD "low"
  let opportunity_level := llm_output.opportunity_level.getD "low"
  let reasoning := llm_output.reasoning.getD ""
  let intent := nlp_analysis.intent.getD "general_inquiry"
  let sentiment := nlp_analysis.sentiment.getD ⟨none, none⟩
  let keywords := nlp_analysis.keywords.getD []
  let entities := nlp_analysis.entities.getD []
  match runRules intent risk_level opportunity_level
      ⟨final_action, priority_score, false, false, false, []⟩ with
  | .error e => .error e
  | .ok s =>
      .ok ⟨s.final_action, s.priority_score, risk_level, opportunity_level,
           s.escalation_required, s.urgent_flag, s.revenue_opportunity,
           calculate_confidence sentiment keywords entities, reasoning,
           s.rules_applied, intent, sentiment.sentiment_label.getD "neutral"⟩

/-- Result of `validate_action_safety`. -/
structure SafetyResult where
  is_safe : Bool
  warnings : List String
  modifications : List String
deriving DecidableEq, Repr

/-- The fixed list of risky keywords scanned by `validate_action_safety`. -/
def risky_keywords : List String :=
  ["discount", "refund", "compensation", "free", "waive"]

/-- The warning string appended for one risky keyword. -/
def riskyWarning (keyword : String) : String :=
  "Action contains potentially risky keyword: \x27" ++ keyword ++ "\x27"

/-- `ActionEngine.validate_action_safety`. -/
def validate_action_safety (action : String) : SafetyResult :=
  let action_lower := lowerStr action
  let warnings :=
    risky_keywords.foldl
      (fun ws keyword =>
        if strContains action_lower keyword then ws ++ [riskyWarning keyword] else ws)
      []
  if strContains action "$" || strContains action "%" then
    ⟨false, warnings ++ ["Action contains monetary values - requires approval"], []⟩
  else
    ⟨true, warnings, []⟩

/-! Derived closed forms of the rule pipeline, proven equal to the rule chain
in `runRules_int` below.  They name, per output field, what the ordered rules
compute when `priority_score` is an integer. -/

/-- Final action after RULE 1 (high risk forces the escalation message). -/
def actionAfterRule1 (risk_level fa0 : String) : String :=
  if risk_level = "high" then "Escalate to Senior Manager immediately" else fa0

/-- Final action after RULE 5 (complaint + high risk overrides RULE 1's text). -/
def actionAfterRule5 (intent risk_level fa0 : String) : String :=
  if intent = "complaint" ∧ risk_level = "high" then
    "Route to retention specialist with compensation authority"
  else actionAfterRule1 risk_level fa0

/-- Final action after RULE 6 (demo fast-track, non-clobbering). -/
def actionAfterRule6 (intent opportunity_level fa5 : String) : String :=
  if intent = "demo_request" ∧ opportunity_level = "high" then
    (if strContains (lowerStr fa5) "schedule demo" then fa5
     else "Fast-track demo scheduling with senior sales rep")
  else fa5

/-- Priority after RULE 2 (churn floor). -/
def priorityAfterRule2 (intent : String) (n : Int) : Int :=
  if intent = "churn_risk" then max n CHURN_MINIMUM_PRIORITY else n

/-- Escalation flag after all rules (set by rules 1, 2 and 5). -/
def escAfterRules (intent risk_level : String) : Bool :=
  decide (risk_level = "high") || decide (intent = "churn_risk") ||
    decide (intent = "complaint" ∧ risk_level = "high")

/-- Urgent flag after all rules (RULE 4, evaluated after RULE 2's elevation). -/
def urgAfterRules (intent : String) (n : Int) : Bool :=
  decide (priorityAfterRule2 intent n > HIGH_PRIORITY_THRESHOLD)

/-- Revenue-opportunity flag after all rules (RULE 3). -/
def revAfterRules (opportunity_level risk_level : String) : Bool :=
  decide (opportunity_level = "high" ∧ risk_level = "low")

/-- The audit trail produced by the six rules, in firing order. -/
def rulesLog (intent risk_level opportunity_level : String) (n : Int) : List String :=
  (if risk_level = "high" then ["RULE_1: High risk detected - forced escalation"]
   else []) ++
  (if intent = "churn_risk" then
     ["RULE_2: Churn risk - priority elevated from " ++ toString n ++ " to " ++
      toString (max n CHURN_MINIMUM_PRIORITY)]
   else []) ++
  (if opportunity_level = "high" ∧ risk_level = "low" then
     ["RULE_3: High opportunity + low risk = revenue opportunity flagged"]
   else []) ++
  (if priorityAfterRule2 intent n > HIGH_PRIORITY_THRESHOLD then
     ["RULE_4: Priority " ++ toString (priorityAfterRule2 intent n) ++ " > " ++
      toString HIGH_PRIORITY_THRESHOLD ++ " - urgent flag set"]
   else []) ++
  (if intent = "complaint" ∧ risk_level = "high" then
     ["RULE_5: Complaint + high risk - retention routing"]
   else []) ++
  (if intent = "demo_request" ∧ opportunity_level = "high" then
     ["RULE_6: High-value demo request - fast-track enabled"]
   else [])

theorem runRules_int (i r o fa0 : String) (n : Int) :
    runRules i r o ⟨fa0, .vInt n, false, false, false, []⟩ =
      .ok ⟨actionAfterRule6 i o (actionAfterRule5 i r fa0),
           .vInt (priorityAfterRule2 i n),
           escAfterRules i r, urgAfterRules i n, revAfterRules o r,
           rulesLog i r o n⟩ := by
  by_cases hr : r = "high" <;> by_cases hl : r = "low" <;>
    by_cases hi1 : i = "churn_risk" <;> by_cases hi2 : i = "complaint" <;>
    by_cases hi3 : i = "demo_request" <;> by_cases ho : o = "high" <;>
    by_cases h4 : HIGH_PRIORITY_THRESHOLD < priorityAfterRule2 i n <;>
    simp_all [runRules, rulesThrough5, rule1, rule2, rule3, rule4, rule5, rule6,
      pvalMax, pvalGt, actionAfterRule1, actionAfterRule5, actionAfterRule6,
      priorityAfterRule2, escAfterRules, urgAfterRules, revAfterRules, rulesLog,
      PVal.render, HIGH_PRIORITY_THRESHOLD, CHURN_MINIMUM_PRIORITY, -not_lt]

theorem runRules_str (i r o fa0 s : String) :
    runRules i r o ⟨fa0, .vStr s, false, false, false, []⟩ =
      .error "TypeError: unsupported comparison between str and int" := by
  by_cases hi : i = "churn_risk" <;> by_cases hr : r = "high" <;>
    by_cases hl : r = "low" <;> by_cases ho : o = "high" <;>
    simp_all [runRules, rulesThrough5, rule1, rule2, rule3, rule4, rule5, rule6,
      pvalMax, pvalGt]

/-- Master characterization of `evaluate` when the (defaulted) priority is an
integer: every field of the returned decision in closed form. -/
theorem evaluate_int (nlp : NLPAnalysis) (llm : LLMOutput) (n : Int)
    (hp : llm.priority_score.getD (.vInt 50) = .vInt n) :
    evaluate nlp llm =
      .ok ⟨actionAfterRule6 (nlp.intent.getD "general_inquiry")
             (llm.opportunity_level.getD "low")
             (actionAfterRule5 (nlp.intent.getD "general_inquiry")
               (llm.risk_level.getD "low")
               (llm.recommended_action.getD "Review call manually")),
           .vInt (priorityAfterRule2 (nlp.intent.getD "general_inquiry") n),
           llm.risk_level.getD "low",
           llm.opportunity_level.getD "low",
           escAfterRules (nlp.intent.getD "general_inquiry")
             (llm.risk_level.getD "low"),
           urgAfterRules (nlp.intent.getD "general_inquiry") n,
           revAfterRules (llm.opportunity_level.getD "low")
             (llm.risk_level.getD "low"),
           calculate_confidence (nlp.sentiment.getD ⟨none, none⟩)
             (nlp.keywords.getD []) (nlp.entities.getD []),
           llm.reasoning.getD "",
           rulesLog (nlp.intent.getD "general_inquiry")
             (llm.risk_level.getD "low") (llm.opportunity_level.getD "low") n,
           nlp.intent.getD "general_inquiry",
           (nlp.sentiment.getD ⟨none, none⟩).sentiment_label.getD "neutral"⟩ := by
  unfold evaluate
  rw [hp]
  simp only [runRules_int]

/-- `evaluate` raises `TypeError` whenever the priority reaching the rules is a
string (at RULE 2's `max` for churn intents, at RULE 4's `>` otherwise). -/
theorem evaluate_str (nlp : NLPAnalysis) (llm : LLMOutput) (s : String)
    (hp : llm.priority_score.getD (.vInt 50) = .vStr s) :
    evaluate nlp llm =
      .error "TypeError: unsupported comparison between str and int" := by
  unfold evaluate
  rw [hp]
  simp only [runRules_str]

/-- A decision is only returned when the (defaulted) priority value is an int. -/
theorem evaluate_ok_priority_int (nlp : NLPAnalysis) (llm : LLMOutput) (d : Decision)
    (hok : evaluate nlp llm = .ok d) :
    ∃ n : Int, llm.priority_score.getD (.vInt 50) = .vInt n := by
  cases hp : llm.priority_score.getD (.vInt 50) with
  | vInt m => exact ⟨m, rfl⟩
  | vStr s =>
      rw [evaluate_str nlp llm s hp] at hok
      exact (Except.noConfusion hok)

/-- The confidence field of any returned decision is `_calculate_confidence`
of the NLP signals alone. -/
theorem evaluate_ok_confidence (nlp : NLPAnalysis) (llm : LLMOutput) (d : Decision)
    (hok : evaluate nlp llm = .ok d) :
    d.confidence_score = calculate_confidence (nlp.sentiment.getD ⟨none, none⟩)
      (nlp.keywords.getD []) (nlp.entities.getD []) := by
  obtain ⟨n, hp⟩ := evaluate_ok_priority_int nlp llm d hok
  rw [evaluate_int nlp llm n hp] at hok
  injection hok with h
  subst h
  rfl

/-- Closed form of `_calculate_confidence`. -/
theorem calculate_confidence_eq (s : Sentiment)
    (kw : List (String × List String)) (en : List String) :
    calculate_confidence s kw en =
      min (70 + (if ratAbs (s.compound.getD 0) > STRONG_SENTIMENT_THRESHOLD
                 then 10 else 0)
             + (if kw ≠ [] then 10 else 0)
             + (if en ≠ [] then 10 else 0)) 100 := by
  unfold calculate_confidence BASE_CONFIDENCE SENTIMENT_BONUS KEYWORDS_BONUS
    ENTITIES_BONUS
  rcases kw with _ | ⟨k, kw⟩ <;> rcases en with _ | ⟨e, en⟩ <;>
    split_ifs <;> simp_all [-not_lt]

/-- `_calculate_confidence` always lands in [70, 100]. -/
theorem calculate_confidence_bounds (s : Sentiment)
    (kw : List (String × List String)) (en : List String) :
    70 ≤ calculate_confidence s kw en ∧ calculate_confidence s kw en ≤ 100 := by
  rw [calculate_confidence_eq]
  split_ifs <;> norm_num

/-- `_calculate_confidence` is monotone in the three independent signals. -/
theorem calculate_confidence_mono (s s' : Sentiment)
    (kw kw' : List (String × List String)) (en en' : List String)
    (h1 : ratAbs (s.compound.getD 0) > STRONG_SENTIMENT_THRESHOLD →
          ratAbs (s'.compound.getD 0) > STRONG_SENTIMENT_THRESHOLD)
    (h2 : kw ≠ [] → kw' ≠ []) (h3 : en ≠ [] → en' ≠ []) :
    calculate_confidence s kw en ≤ calculate_confidence s' kw' en' := by
  rw [calculate_confidence_eq, calculate_confidence_eq]
  split_ifs <;> simp_all

/-- Length of the accumulating risky-keyword scan loop. -/
theorem foldl_warn_length (p : String → Bool) (f : String → String)
    (l : List String) : ∀ acc : List String,
    (l.foldl (fun ws k => if p k then ws ++ [f k] else ws) acc).length
      = acc.length + (l.filter p).length := by
  induction l with
  | nil => intro acc; simp
  | cons k l ih =>
      intro acc
      by_cases h : p k <;> simp [h, ih] <;> omega

/-- Claim C1 (counterexample to the claim as stated): a `priority_score` given
as a string makes `evaluate` raise instead of degrading to 50, and a
`risk_level` outside the closed set is carried into the decision unchanged
instead of degrading to "low". -/
theorem evaluate_malformed_not_degraded_cex :
    evaluate ⟨none, none, none, none⟩
        ⟨none, some (.vStr "seventy"), none, none, none⟩ =
      .error "TypeError: unsupported comparison between str and int" ∧
    evaluate ⟨none, none, none, none⟩ ⟨none, none, some "critical", none, none⟩ =
      .ok ⟨"Review call manually", .vInt 50, "critical", "low", false, false,
           false, 70, "", [], "general_inquiry", "neutral"⟩ :=
  ⟨rfl, rfl⟩

/-- Claim C1 (amended): `evaluate` degrades fields that are missing entirely to
the documented defaults (action "Review call manually", priority 50, risk
"low", opportunity "low"), but fields that are present and malformed are not
degraded: an out-of-set `risk_level`/`opportunity_level` passes through to the
decision unchanged, and a `priority_score` given as a string makes `evaluate`
raise `TypeError` at the first int comparison. -/
theorem evaluate_missing_defaults_malformed_passthrough :
    (∀ nlp : NLPAnalysis,
      evaluate nlp ⟨none, none, none, none, none⟩ =
        .ok ⟨"Review call manually",
             .vInt (if nlp.intent.getD "general_inquiry" = "churn_risk"
                    then 90 else 50),
             "low", "low",
             decide (nlp.intent.getD "general_inquiry" = "churn_risk"),
             decide (nlp.intent.getD "general_inquiry" = "churn_risk"),
             false,
             calculate_confidence (nlp.sentiment.getD ⟨none, none⟩)
               (nlp.keywords.getD []) (nlp.entities.getD []),
             "",
             (if nlp.intent.getD "general_inquiry" = "churn_risk" then
                ["RULE_2: Churn risk - priority elevated from 50 to 90",
                 "RULE_4: Priority 90 > 85 - urgent flag set"]
              else []),
             nlp.intent.getD "general_inquiry",
             (nlp.sentiment.getD ⟨none, none⟩).sentiment_label.getD "neutral"⟩) ∧
    (∀ (nlp : NLPAnalysis) (llm : LLMOutput) (s : String),
      llm.priority_score = some (.vStr s) →
      evaluate nlp llm =
        .error "TypeError: unsupported comparison between str and int") ∧
    (∀ (nlp : NLPAnalysis) (llm : LLMOutput) (d : Decision),
      evaluate nlp llm = .ok d →
      d.risk_level = llm.risk_level.getD "low" ∧
      d.opportunity_level = llm.opportunity_level.getD "low") := by
  refine ⟨?_, ?_, ?_⟩
  · intro nlp
    rw [evaluate_int nlp ⟨none, none, none, none, none⟩ 50 rfl]
    by_cases hi : nlp.intent.getD "general_inquiry" = "churn_risk" <;>
      simp [hi, actionAfterRule6, actionAfterRule5, actionAfterRule1,
        priorityAfterRule2, escAfterRules, urgAfterRules, revAfterRules,
        rulesLog, HIGH_PRIORITY_THRESHOLD, CHURN_MINIMUM_PRIORITY] <;>
      (try exact ⟨rfl, rfl⟩)
  · intro nlp llm s h
    have hp : llm.priority_score.getD (.vInt 50) = .vStr s := by rw [h]; rfl
    exact evaluate_str nlp llm s hp
  · intro nlp llm d hok
    obtain ⟨n, hp⟩ := evaluate_ok_priority_int nlp llm d hok
    rw [evaluate_int nlp llm n hp] at hok
    injection hok with h
    subst h
    exact ⟨rfl, rfl⟩

/-- Claim C1 witness: the defaulting branch at a churn-risk call and the
raising branch at a string priority, both at concrete inputs. -/
theorem evaluate_missing_defaults_malformed_passthrough_witness :
    evaluate ⟨some "churn_risk", none, none, none⟩ ⟨none, none, none, none, none⟩ =
      .ok ⟨"Review call manually", .vInt 90, "low", "low", true, true, false, 70,
           "",
           ["RULE_2: Churn risk - priority elevated from 50 to 90",
            "RULE_4: Priority 90 > 85 - urgent flag set"],
           "churn_risk", "neutral"⟩ ∧
    evaluate ⟨none, none, none, none⟩
        ⟨none, some (.vStr "oops"), none, none, none⟩ =
      .error "TypeError: unsupported comparison between str and int" := by
  constructor
  · exact evaluate_missing_defaults_malformed_passthrough.1
      ⟨some "churn_risk", none, none, none⟩
  · exact evaluate_missing_defaults_malformed_passthrough.2.1 _ _ "oops" rfl

/-- Claim C2: for a churn-risk intent, the returned decision carries priority
`max n 90` (unchanged when `n ≥ 90`), has `escalation_required = true`, and
its audit trail records the before/after priority values. -/
theorem churn_risk_priority_floor (nlp : NLPAnalysis) (llm : LLMOutput)
    (d : Decision) (n : Int)
    (hi : nlp.intent.getD "general_inquiry" = "churn_risk")
    (hp : llm.priority_score.getD (.vInt 50) = .vInt n)
    (hok : evaluate nlp llm = .ok d) :
    d.priority_score = .vInt (max n 90) ∧
    (90 ≤ n → d.priority_score = .vInt n) ∧
    d.escalation_required = true ∧
    ("RULE_2: Churn risk - priority elevated from " ++ toString n ++ " to " ++
        toString (max n 90)) ∈ d.rules_applied := by
  rw [evaluate_int nlp llm n hp] at hok
  injection hok with h
  subst h
  refine ⟨?_, ?_, ?_, ?_⟩
  · simp [priorityAfterRule2, hi, CHURN_MINIMUM_PRIORITY]
  · intro h90
    simp [priorityAfterRule2, hi, CHURN_MINIMUM_PRIORITY, max_eq_left h90]
  · simp [escAfterRules, hi]
  · simp [rulesLog, hi, CHURN_MINIMUM_PRIORITY, List.mem_append]

/-- Claim C2 witness: churn-risk input with priority 10 is floored to 90. -/
theorem churn_risk_priority_floor_witness :
    (⟨"Review call manually", .vInt 90, "low", "low", true, true, false, 70, "",
      ["RULE_2: Churn risk - priority elevated from 10 to 90",
       "RULE_4: Priority 90 > 85 - urgent flag set"],
      "churn_risk", "neutral"⟩ : Decision).priority_score =
        .vInt (max 10 90) ∧
    ((90 : Int) ≤ 10 →
      (⟨"Review call manually", .vInt 90, "low", "low", true, true, false, 70, "",
        ["RULE_2: Churn risk - priority elevated from 10 to 90",
         "RULE_4: Priority 90 > 85 - urgent flag set"],
        "churn_risk", "neutral"⟩ : Decision).priority_score = .vInt 10) ∧
    (⟨"Review call manually", .vInt 90, "low", "low", true, true, false, 70, "",
      ["RULE_2: Churn risk - priority elevated from 10 to 90",
       "RULE_4: Priority 90 > 85 - urgent flag set"],
      "churn_risk", "neutral"⟩ : Decision).escalation_required = true ∧
    ("RULE_2: Churn risk - priority elevated from " ++ toString (10 : Int) ++
        " to " ++ toString (max (10 : Int) 90)) ∈
      (⟨"Review call manually", .vInt 90, "low", "low", true, true, false, 70, "",
        ["RULE_2: Churn risk - priority elevated from 10 to 90",
         "RULE_4: Priority 90 > 85 - urgent flag set"],
        "churn_risk", "neutral"⟩ : Decision).rules_applied :=
  churn_risk_priority_floor ⟨some "churn_risk", none, none, none⟩
    ⟨none, some (.vInt 10), none, none, none⟩ _ 10 rfl rfl rfl

/-- Claim C3: complaint intent with high risk yields the retention-routing
action (rule 5 wins over rule 1) and a required escalation. -/
theorem complaint_high_risk_retention_routing (nlp : NLPAnalysis)
    (llm : LLMOutput) (d : Decision)
    (hi : nlp.intent.getD "general_inquiry" = "complaint")
    (hr : llm.risk_level.getD "low" = "high")
    (hok : evaluate nlp llm = .ok d) :
    d.final_action = "Route to retention specialist with compensation authority" ∧
    d.escalation_required = true := by
  obtain ⟨n, hp⟩ := evaluate_ok_priority_int nlp llm d hok
  rw [evaluate_int nlp llm n hp] at hok
  injection hok with h
  subst h
  constructor
  · simp [actionAfterRule6, actionAfterRule5, hi, hr]
  · simp [escAfterRules, hr]

/-- Claim C3 witness: a concrete high-risk complaint. -/
theorem complaint_high_risk_retention_routing_witness :
    (⟨"Route to retention specialist with compensation authority", .vInt 50,
      "high", "low", true, false, false, 70, "",
      ["RULE_1: High risk detected - forced escalation",
       "RULE_5: Complaint + high risk - retention routing"],
      "complaint", "neutral"⟩ : Decision).final_action =
        "Route to retention specialist with compensation authority" ∧
    (⟨"Route to retention specialist with compensation authority", .vInt 50,
      "high", "low", true, false, false, 70, "",
      ["RULE_1: High risk detected - forced escalation",
       "RULE_5: Complaint + high risk - retention routing"],
      "complaint", "neutral"⟩ : Decision).escalation_required = true :=
  complaint_high_risk_retention_routing ⟨some "complaint", none, none, none⟩
    ⟨none, none, some "high", none, none⟩ _ rfl rfl rfl

/-- Claim C4 (counterexample to the claim as stated): with high risk, a
demo-request intent and high opportunity, rule 6 (not rule 5) replaces the
action text, so `final_action` does not contain "Escalate" even though rule 5
never fired. -/
theorem high_risk_escalation_action_cex :
    evaluate ⟨some "demo_request", none, none, none⟩
        ⟨none, none, some "high", some "high", none⟩ =
      .ok ⟨"Fast-track demo scheduling with senior sales rep", .vInt 50, "high",
           "high", true, false, false, 70, "",
           ["RULE_1: High risk detected - forced escalation",
            "RULE_6: High-value demo request - fast-track enabled"],
           "demo_request", "neutral"⟩ ∧
    strContains "Fast-track demo scheduling with senior sales rep" "Escalate" =
      false ∧
    "RULE_5: Complaint + high risk - retention routing" ∉
      ["RULE_1: High risk detected - forced escalation",
       "RULE_6: High-value demo request - fast-track enabled"] :=
  ⟨rfl, by decide, by decide⟩

/-- Claim C4 (amended): high risk always forces `escalation_required = true`,
and `final_action` contains "Escalate" unless the complaint (rule 5) or the
demo-request fast-track (rule 6) condition replaced the action text. -/
theorem high_risk_escalation_action (nlp : NLPAnalysis) (llm : LLMOutput)
    (d : Decision)
    (hr : llm.risk_level.getD "low" = "high")
    (hok : evaluate nlp llm = .ok d) :
    d.escalation_required = true ∧
    (strContains d.final_action "Escalate" = true ∨
     nlp.intent.getD "general_inquiry" = "complaint" ∨
     (nlp.intent.getD "general_inquiry" = "demo_request" ∧
      llm.opportunity_level.getD "low" = "high")) := by
  obtain ⟨n, hp⟩ := evaluate_ok_priority_int nlp llm d hok
  rw [evaluate_int nlp llm n hp] at hok
  injection hok with h
  subst h
  refine ⟨by simp [escAfterRules, hr], ?_⟩
  by_cases h5 : nlp.intent.getD "general_inquiry" = "complaint"
  · exact Or.inr (Or.inl h5)
  · by_cases h6 : nlp.intent.getD "general_inquiry" = "demo_request" ∧
        llm.opportunity_level.getD "low" = "high"
    · exact Or.inr (Or.inr h6)
    · refine Or.inl ?_
      simp [actionAfterRule6, actionAfterRule5, actionAfterRule1, hr, h5, h6]
      decide

/-- Claim C4 witness: plain high-risk input keeps the escalation message. -/
theorem high_risk_escalation_action_witness :
    (⟨"Escalate to Senior Manager immediately", .vInt 50, "high", "low", true,
      false, false, 70, "", ["RULE_1: High risk detected - forced escalation"],
      "general_inquiry", "neutral"⟩ : Decision).escalation_required = true ∧
    (strContains
        (⟨"Escalate to Senior Manager immediately", .vInt 50, "high", "low",
          true, false, false, 70, "",
          ["RULE_1: High risk detected - forced escalation"],
          "general_inquiry", "neutral"⟩ : Decision).final_action "Escalate" =
          true ∨
     ("general_inquiry" : String) = "complaint" ∨
     (("general_inquiry" : String) = "demo_request" ∧
      ("low" : String) = "high")) :=
  high_risk_escalation_action ⟨none, none, none, none⟩
    ⟨none, none, some "high", none, none⟩ _ rfl rfl

/-- Claim C5: the confidence score is exactly the base-70 formula with +10 per
independent signal, clamped at 100, lies in [70, 100], and is independent of
the recommendation input. -/
theorem confidence_score_formula (nlp : NLPAnalysis) (llm : LLMOutput)
    (d : Decision) (hok : evaluate nlp llm = .ok d) :
    d.confidence_score =
      min (70 + (if ratAbs ((nlp.sentiment.getD ⟨none, none⟩).compound.getD 0) >
                    STRONG_SENTIMENT_THRESHOLD then 10 else 0)
             + (if nlp.keywords.getD [] ≠ [] then 10 else 0)
             + (if nlp.entities.getD [] ≠ [] then 10 else 0)) 100 ∧
    70 ≤ d.confidence_score ∧ d.confidence_score ≤ 100 ∧
    (∀ (llm' : LLMOutput) (d' : Decision), evaluate nlp llm' = .ok d' →
      d'.confidence_score = d.confidence_score) := by
  have hc := evaluate_ok_confidence nlp llm d hok
  refine ⟨by rw [hc, calculate_confidence_eq], ?_, ?_, ?_⟩
  · rw [hc]
    exact (calculate_confidence_bounds _ _ _).1
  · rw [hc]
    exact (calculate_confidence_bounds _ _ _).2
  · intro llm' d' hok'
    rw [evaluate_ok_confidence nlp llm' d' hok', hc]

/-- Claim C5 witness: signal-free input gives confidence exactly 70. -/
theorem confidence_score_formula_witness :
    (⟨"Review call manually", .vInt 50, "low", "low", false, false, false, 70,
      "", [], "general_inquiry", "neutral"⟩ : Decision).confidence_score = 70 ∧
    70 ≤ (⟨"Review call manually", .vInt 50, "low", "low", false, false, false,
           70, "", [], "general_inquiry", "neutral"⟩ :
            Decision).confidence_score ∧
    (⟨"Review call manually", .vInt 50, "low", "low", false, false, false, 70,
      "", [], "general_inquiry", "neutral"⟩ : Decision).confidence_score ≤
      100 := by
  have h := confidence_score_formula ⟨none, none, none, none⟩
    ⟨none, none, none, none, none⟩
    ⟨"Review call manually", .vInt 50, "low", "low", false, false, false, 70,
     "", [], "general_inquiry", "neutral"⟩ rfl
  exact ⟨h.1, h.2.1, h.2.2.1⟩

/-- Claim C6: for a high-opportunity demo request, rule 6 keeps the current
action when it already mentions "schedule demo" (case-insensitively) and
replaces it with the fast-track message otherwise; the audit entry is appended
in both cases. -/
theorem demo_fast_track_non_clobbering (nlp : NLPAnalysis) (llm : LLMOutput)
    (d : Decision)
    (hi : nlp.intent.getD "general_inquiry" = "demo_request")
    (ho : llm.opportunity_level.getD "low" = "high")
    (hok : evaluate nlp llm = .ok d) :
    "RULE_6: High-value demo request - fast-track enabled" ∈ d.rules_applied ∧
    d.final_action =
      (if strContains
            (lowerStr (actionAfterRule5 (nlp.intent.getD "general_inquiry")
              (llm.risk_level.getD "low")
              (llm.recommended_action.getD "Review call manually")))
            "schedule demo"
       then actionAfterRule5 (nlp.intent.getD "general_inquiry")
              (llm.risk_level.getD "low")
              (llm.recommended_action.getD "Review call manually")
       else "Fast-track demo scheduling with senior sales rep") := by
  obtain ⟨n, hp⟩ := evaluate_ok_priority_int nlp llm d hok
  rw [evaluate_int nlp llm n hp] at hok
  injection hok with h
  subst h
  constructor
  · simp [rulesLog, hi, ho, List.mem_append]
  · simp [actionAfterRule6, hi, ho]

/-- Claim C6 witness: the spec's example action "Schedule demo next Tuesday at
3pm" is left unchanged while rule 6 is still recorded. -/
theorem demo_fast_track_non_clobbering_witness :
    "RULE_6: High-value demo request - fast-track enabled" ∈
      (⟨"Schedule demo next Tuesday at 3pm", .vInt 50, "low", "high", false,
        false, true, 70, "",
        ["RULE_3: High opportunity + low risk = revenue opportunity flagged",
         "RULE_6: High-value demo request - fast-track enabled"],
        "demo_request", "neutral"⟩ : Decision).rules_applied ∧
    (⟨"Schedule demo next Tuesday at 3pm", .vInt 50, "low", "high", false,
      false, true, 70, "",
      ["RULE_3: High opportunity + low risk = revenue opportunity flagged",
       "RULE_6: High-value demo request - fast-track enabled"],
      "demo_request", "neutral"⟩ : Decision).final_action =
      "Schedule demo next Tuesday at 3pm" := by
  have h := demo_fast_track_non_clobbering ⟨some "demo_request", none, none, none⟩
    ⟨some "Schedule demo next Tuesday at 3pm", none, some "low", some "high",
     none⟩
    ⟨"Schedule demo next Tuesday at 3pm", .vInt 50, "low", "high", false, false,
     true, 70, "",
     ["RULE_3: High opportunity + low risk = revenue opportunity flagged",
      "RULE_6: High-value demo request - fast-track enabled"],
     "demo_request", "neutral"⟩ rfl rfl rfl
  exact ⟨h.1, h.2⟩

/-- Claim C7: `validate_action_safety` reports unsafe exactly when the action
contains a literal dollar or percent character; each risky keyword present
contributes exactly one warning without affecting safety; the two documented
examples behave as specified. -/
theorem validate_action_safety_spec :
    (∀ action : String,
      ((validate_action_safety action).is_safe = false ↔
        (strContains action "$" = true ∨ strContains action "%" = true)) ∧
      (validate_action_safety action).warnings.length =
        (risky_keywords.filter fun k => strContains (lowerStr action) k).length
          + (if strContains action "$" || strContains action "%" then 1
             else 0)) ∧
    (validate_action_safety "Offer a 20% discount").is_safe = false ∧
    (validate_action_safety "Schedule a follow-up call").is_safe = true ∧
    (validate_action_safety "Schedule a follow-up call").warnings = [] := by
  refine ⟨?_, by decide, by decide, by decide⟩
  intro action
  unfold validate_action_safety
  by_cases hd : strContains action "$" = true <;>
    by_cases hpc : strContains action "%" = true <;>
    simp [hd, hpc, foldl_warn_length]

/-- Claim C7 witness: the iff and the warning count at the documented "Offer a
20% discount" example. -/
theorem validate_action_safety_spec_witness :
    ((validate_action_safety "Offer a 20% discount").is_safe = false ↔
      (strContains "Offer a 20% discount" "$" = true ∨
       strContains "Offer a 20% discount" "%" = true)) ∧
    (validate_action_safety "Offer a 20% discount").warnings.length =
      (risky_keywords.filter fun k =>
        strContains (lowerStr "Offer a 20% discount") k).length +
        (if strContains "Offer a 20% discount" "$" ||
            strContains "Offer a 20% discount" "%" then 1 else 0) :=
  validate_action_safety_spec.1 "Offer a 20% discount"

/-- Claim C8: the confidence score is monotonically non-decreasing as
independent signals (strong sentiment, non-empty keywords, non-empty
entities) are added. -/
theorem confidence_score_monotone (nlp nlp' : NLPAnalysis)
    (llm llm' : LLMOutput) (d d' : Decision)
    (hok : evaluate nlp llm = .ok d) (hok' : evaluate nlp' llm' = .ok d')
    (h1 : ratAbs ((nlp.sentiment.getD ⟨none, none⟩).compound.getD 0) >
            STRONG_SENTIMENT_THRESHOLD →
          ratAbs ((nlp'.sentiment.getD ⟨none, none⟩).compound.getD 0) >
            STRONG_SENTIMENT_THRESHOLD)
    (h2 : nlp.keywords.getD [] ≠ [] → nlp'.keywords.getD [] ≠ [])
    (h3 : nlp.entities.getD [] ≠ [] → nlp'.entities.getD [] ≠ []) :
    d.confidence_score ≤ d'.confidence_score := by
  rw [evaluate_ok_confidence nlp llm d hok,
    evaluate_ok_confidence nlp' llm' d' hok']
  exact calculate_confidence_mono _ _ _ _ _ _ h1 h2 h3

/-- Claim C8 witness: no signals (confidence 70) against all three signals
(confidence 100). -/
theorem confidence_score_monotone_witness :
    (⟨"Review call manually", .vInt 50, "low", "low", false, false, false, 70,
      "", [], "general_inquiry", "neutral"⟩ : Decision).confidence_score ≤
    (⟨"Review call manually", .vInt 50, "low", "low", false, false, false, 100,
      "", [], "general_inquiry", "neutral"⟩ : Decision).confidence_score :=
  confidence_score_monotone ⟨none, none, none, none⟩
    ⟨none, some ⟨some (mkRat 3 4), none⟩, some [("pricing", ["cost"])],
     some ["Acme"]⟩
    ⟨none, none, none, none, none⟩ ⟨none, none, none, none, none⟩
    ⟨"Review call manually", .vInt 50, "low", "low", false, false, false, 70,
     "", [], "general_inquiry", "neutral"⟩
    ⟨"Review call manually", .vInt 50, "low", "low", false, false, false, 100,
     "", [], "general_inquiry", "neutral"⟩
    rfl rfl (by decide) (by decide) (by decide)

/-- Claim C9: `evaluate` is a deterministic pure function of its two inputs:
equal inputs give equal outputs, with no hidden state. -/
theorem evaluate_deterministic (nlp nlp' : NLPAnalysis) (llm llm' : LLMOutput)
    (h1 : nlp = nlp') (h2 : llm = llm') :
    evaluate nlp llm = evaluate nlp' llm' := by
  rw [h1, h2]

/-- Claim C9 witness: two identical concrete calls agree. -/
theorem evaluate_deterministic_witness :
    evaluate ⟨some "churn_risk", none, none, none⟩
        ⟨none, some (.vInt 75), some "high", none, none⟩ =
      evaluate ⟨some "churn_risk", none, none, none⟩
        ⟨none, some (.vInt 75), some "high", none, none⟩ :=
  evaluate_deterministic _ _ _ _ rfl rfl

/-- Claim C10: `escalation_required` is true exactly when the (defaulted) risk
level is "high" or the intent is "churn_risk"; rule 5's complaint condition is
subsumed by rule 1's. -/
theorem escalation_required_iff (nlp : NLPAnalysis) (llm : LLMOutput)
    (d : Decision) (hok : evaluate nlp llm = .ok d) :
    d.escalation_required =
      (decide (llm.risk_level.getD "low" = "high") ||
       decide (nlp.intent.getD "general_inquiry" = "churn_risk")) := by
  obtain ⟨n, hp⟩ := evaluate_ok_priority_int nlp llm d hok
  rw [evaluate_int nlp llm n hp] at hok
  injection hok with h
  subst h
  by_cases hr : llm.risk_level.getD "low" = "high" <;>
    by_cases hi : nlp.intent.getD "general_inquiry" = "churn_risk" <;>
    simp_all [escAfterRules]

/-- Claim C10 witness: an out-of-set risk level and default intent give a
non-escalated decision, matching the two-predicate formula. -/
theorem escalation_required_iff_witness :
    (⟨"Review call manually", .vInt 50, "critical", "low", false, false, false,
      70, "", [], "general_inquiry", "neutral"⟩ :
        Decision).escalation_required =
      (decide (("critical" : String) = "high") ||
       decide (("general_inquiry" : String) = "churn_risk")) :=
  escalation_required_iff ⟨none, none, none, none⟩
    ⟨none, none, some "critical", none, none⟩
    ⟨"Review call manually", .vInt 50, "critical", "low", false, false, false,
     70, "", [], "general_inquiry", "neutral"⟩ rfl

end ActionEngine
